import Mathlib

/-!
# Verification of the vehicle-telemetry gateway core

A shallow embedding, in Lean 4, of the gateway's ingest → persist → fan-out →
command pipeline (the Node/Express/ws/MongoDB/Redis service in the repository's
gateway source; the later revision with the in-process `streamClients` fan-out
and the resilience catches is the one embedded here).

Naming: the design document abstracts the code's field names — its `agentId`,
`faultCodes` and `metadata` are the code's `vehicleId`, `faults` and `meta`;
its Report/LatestStateRecord/CommandIntent are the code's telemetry packet,
`vehicle_state_latest` document and `commands_log` document.  The embedding
keeps the code's names.

Modelling conventions:
  * JSON values are an inductive `Json`; JavaScript numbers are rationals
    (all finite; the zod schema has no non-finite inputs in the claims below).
  * `JSON.parse` of an inbound text frame is abstracted to an
    `Option Json` input (`none` = unparsable text, which in the code throws
    inside the handler's try block).
  * `JSON.stringify` followed by the observer's `JSON.parse` is the identity
    on the embedded `Json` value, so wire payloads are carried as `Json`.
  * Promise rejection of a store/publish call is modelled by a boolean
    fault flag per call site; a rejected awaited call or a thrown validation
    is an `Except.error`, and the code's `try`/`catch` and `.catch(...)`
    combinators are embedded where the code has them.
  * `console.warn` lines are accumulated in an operator-visible `warnings`
    list, tagged with the code's log prefixes.
-/

namespace VehicleTelemetry

/-- JSON values as produced by `JSON.parse` (numbers as rationals). -/
inductive Json where
  | null : Json
  | bool : Bool → Json
  | num  : ℚ → Json
  | str  : String → Json
  | arr  : List Json → Json
  | obj  : List (String × Json) → Json

/-- Property access on a parsed JSON object: first binding of the key wins
(a `JSON.parse` result never has duplicate keys). Non-objects have no fields. -/
def lookupField : List (String × Json) → String → Option Json
  | [], _ => none
  | (k, v) :: rest, key => if k = key then some v else lookupField rest key

/-- Field access `o[key]` on a `Json` value: `none` when absent or not an
object. -/
def Json.getField : Json → String → Option Json
  | .obj fields, key => lookupField fields key
  | _, _ => none

/-- A validated telemetry packet, the result of `Telemetry.parse` — the
code's zod object with required string `vehicleId`, required numeric
measurement fields, and optional `faults` / `meta`. -/
structure Report where
  vehicleId : String
  ts : ℚ
  speedKph : ℚ
  soc : ℚ
  batteryTempC : ℚ
  motorTempC : ℚ
  lat : ℚ
  lng : ℚ
  faults : Option (List String)
  meta : Option (List (String × Json))

/-- Validator step `z.string()` on a required field: present and a string. -/
def reqStr (j : Json) (key : String) : Option String :=
  match j.getField key with
  | some (.str s) => some s
  | _ => none

/-- Validator step `z.number()` on a required field: present and a number. -/
def reqNum (j : Json) (key : String) : Option ℚ :=
  match j.getField key with
  | some (.num q) => some q
  | _ => none

/-- Validator step `z.array(z.string())`: every element must be a string. -/
def allStrings : List Json → Option (List String)
  | [] => some []
  | .str s :: rest => (allStrings rest).map (s :: ·)
  | _ :: _ => none

/-- Validator step `z.array(z.string()).optional()`: absent is fine; if
present it must be an array of strings. -/
def optStrArr (j : Json) (key : String) : Option (Option (List String)) :=
  match j.getField key with
  | none => some none
  | some (.arr xs) => (allStrings xs).map some
  | some _ => none

/-- Validator step `z.record(z.string(), z.any()).optional()`: absent is
fine; if present it must be an object (values unconstrained). -/
def optObj (j : Json) (key : String) : Option (Option (List (String × Json))) :=
  match j.getField key with
  | none => some none
  | some (.obj m) => some (some m)
  | some _ => none

/-- The validator `Telemetry.parse` — the zod schema of the gateway. Returns the validated
packet, or `none` where zod throws. Unknown keys are stripped (zod default). -/
def telemetryParse (j : Json) : Option Report := do
  let vehicleId ← reqStr j "vehicleId"
  let ts ← reqNum j "ts"
  let speedKph ← reqNum j "speedKph"
  let soc ← reqNum j "soc"
  let batteryTempC ← reqNum j "batteryTempC"
  let motorTempC ← reqNum j "motorTempC"
  let lat ← reqNum j "lat"
  let lng ← reqNum j "lng"
  let faults ← optStrArr j "faults"
  let meta ← optObj j "meta"
  pure { vehicleId, ts, speedKph, soc, batteryTempC, motorTempC, lat, lng,
         faults, meta }

/-- Re-serialization of a validated packet (`JSON.stringify(data)`); the
wire payload observers receive. Optional fields absent from the packet are
absent from the payload. -/
def Report.toJson (r : Report) : Json :=
  .obj ([("vehicleId", .str r.vehicleId), ("ts", .num r.ts),
         ("speedKph", .num r.speedKph), ("soc", .num r.soc),
         ("batteryTempC", .num r.batteryTempC), ("motorTempC", .num r.motorTempC),
         ("lat", .num r.lat), ("lng", .num r.lng)]
        ++ (match r.faults with
            | some fs => [("faults", Json.arr (fs.map Json.str))]
            | none => [])
        ++ (match r.meta with
            | some m => [("meta", Json.obj m)]
            | none => []))

/-- One `vehicle_state_latest` document: the Mongo doc written by
`latestColl.updateOne({vehicleId}, {$set: {last, updatedAt}}, {upsert:true})`. -/
structure LatestDoc where
  vehicleId : String
  last : Report
  updatedAt : ℕ

/-- One `commands_log` document. -/
structure CmdDoc where
  vehicleId : String
  command : String
  params : Option Json
  ts : ℕ
  status : String

/-- A `/ws/stream` observer socket: its `readyState === OPEN` flag and the
frames `ws.send` has delivered to it. -/
structure StreamClient where
  cid : ℕ
  isOpen : Bool
  received : List Json

/-- The gateway's observable state: the three Mongo collections, the local
`streamClients` set, the Redis publishes (attempted and successful),
the operator log, and the ingest socket (which the message handler never
replies on or closes — `agentReplies` and `ingestConnOpen` record that). -/
structure GatewayState where
  rawColl : List Report
  latestColl : List LatestDoc
  cmdColl : List CmdDoc
  streamClients : List StreamClient
  publishCalls : List (String × Json)
  published : List (String × Json)
  warnings : List String
  agentReplies : List Json
  ingestConnOpen : Bool

/-- Per-message fault model: does each backend call succeed this time? -/
structure Faults where
  rawInsertOk : Bool
  upsertOk : Bool
  publishOk : Bool

/-- All backends healthy. -/
def allOk : Faults := ⟨true, true, true⟩

/-- Mongo `updateOne` without upsert: `$set` the `last` and `updatedAt`
fields of the FIRST document matching the `{vehicleId}` filter; `none` when
no document matches. -/
def updateFirst : List LatestDoc → Report → ℕ → Option (List LatestDoc)
  | [], _, _ => none
  | d :: ds, r, now =>
    if d.vehicleId = r.vehicleId then
      some ({ d with last := r, updatedAt := now } :: ds)
    else
      (updateFirst ds r now).map (d :: ·)

/-- Mongo `updateOne(..., {upsert: true})` on `vehicle_state_latest`: update
the first match, or insert `{vehicleId, last, updatedAt}` when none matches. -/
def upsertLatest (coll : List LatestDoc) (r : Report) (now : ℕ) : List LatestDoc :=
  match updateFirst coll r now with
  | some coll2 => coll2
  | none => coll ++ [{ vehicleId := r.vehicleId, last := r, updatedAt := now }]

/-- Mongo `latestColl.findOne({vehicleId})`: first matching document. -/
def findOneLatest (coll : List LatestDoc) (vehicleId : String) : Option LatestDoc :=
  coll.find? (fun d => d.vehicleId = vehicleId)

/-- The unique index on `vehicleId` (`latestColl.createIndex({vehicleId:1},
{unique:true})`): at most one document per key. -/
def atMostOne (coll : List LatestDoc) : Prop :=
  ∀ v : String, (coll.filter (fun d => d.vehicleId = v)).length ≤ 1

/-- The body of the ingest `try` block after a successful
`Telemetry.parse(JSON.parse(msg))`, in the code's order:
fire-and-forget raw insert with `.catch`, awaited upsert inside its own
`try`/`catch`, Redis publish with `.catch`, then the local fan-out loop over
`streamClients` sending to every socket in the open state. -/
def ingestOutcome (fm : Faults) (st : GatewayState) (data : Report) (now : ℕ) :
    GatewayState :=
  let st1 := if fm.rawInsertOk then
      { st with rawColl := st.rawColl ++ [data] }
    else
      { st with warnings := st.warnings ++ ["[rawColl.insertOne]"] }
  let st2 := if fm.upsertOk then
      { st1 with latestColl := upsertLatest st1.latestColl data now }
    else
      { st1 with warnings := st1.warnings ++ ["[latestColl.updateOne]"] }
  let payload := data.toJson
  let st3 := if fm.publishOk then
      { st2 with publishCalls := st2.publishCalls ++ [("telemetry", payload)],
                 published := st2.published ++ [("telemetry", payload)] }
    else
      { st2 with publishCalls := st2.publishCalls ++ [("telemetry", payload)],
                 warnings := st2.warnings ++ ["[redis publish telemetry failed]"] }
  { st3 with streamClients := st3.streamClients.map (fun c =>
      if c.isOpen then { c with received := c.received ++ [payload] } else c) }

/-- The ingest `try` block: `JSON.parse` (a `none` message) or
`Telemetry.parse` (schema rejection) throw, everything after them completes
with the outcome above. -/
def ingestTryBody (fm : Faults) (st : GatewayState) (msg : Option Json) (now : ℕ) :
    Except Unit GatewayState :=
  match msg.bind telemetryParse with
  | none => .error ()
  | some data => .ok (ingestOutcome fm st data now)

/-- The whole per-message ingest handler (the ws message event): the outer `catch` turns any
throw into a silent drop (state unchanged, nothing sent, socket untouched). -/
def handleIngestMessage (fm : Faults) (st : GatewayState) (msg : Option Json)
    (now : ℕ) : GatewayState :=
  match ingestTryBody fm st msg now with
  | .ok st2 => st2
  | .error _ => st

/-! ## Command facade (`POST /api/command`) -/

/-- The destructured `req.body` fields the command route reads
(`const {vehicleId, command, params} = req.body || {}`); `none` = absent. -/
structure CommandRequest where
  vehicleId : Option String
  command : Option String
  params : Option Json

/-- The route's synchronous HTTP response. -/
inductive CmdResponse where
  | badRequest : CmdResponse
  | accepted : CmdResponse
deriving DecidableEq

/-- JavaScript falsiness of an optional string field: absent (`undefined`)
or the empty string. -/
def jsFalsyStr : Option String → Bool
  | none => true
  | some s => s = ""

/-- The serialized command message published on `cmd:{vehicleId}`
(`JSON.stringify({vehicleId, command, params, ts})`; an absent `params` is
`undefined` and is omitted by `JSON.stringify`). -/
def cmdPayload (vehicleId command : String) (params : Option Json) (ts : ℕ) : Json :=
  .obj ([("vehicleId", .str vehicleId), ("command", .str command)]
        ++ (match params with
            | some p => [("params", p)]
            | none => [])
        ++ [("ts", .num ts)])

/-- The CommandIntent document the route appends to `commands_log`:
`{vehicleId, command, params, ts}` plus the initial status, sent. -/
def intentDoc (req : CommandRequest) (now : ℕ) : CmdDoc :=
  { vehicleId := req.vehicleId.getD "", command := req.command.getD "",
    params := req.params, ts := now, status := "sent" }

/-- The `POST /api/command` handler: reject falsy `vehicleId`/`command` with
400 before any side effect; otherwise `await cmdColl.insertOne` inside a
`try`/`catch` that only warns, then publish to `cmd:{vehicleId}` with a
`.catch` that only warns, then answer `{ok:true}`. -/
def handleCommand (insertOk publishOk : Bool) (st : GatewayState)
    (req : CommandRequest) (now : ℕ) : GatewayState × CmdResponse :=
  if jsFalsyStr req.vehicleId || jsFalsyStr req.command then
    (st, .badRequest)
  else
    let v := req.vehicleId.getD ""
    let c := req.command.getD ""
    let st1 := if insertOk then
        { st with cmdColl := st.cmdColl ++ [intentDoc req now] }
      else
        { st with warnings := st.warnings ++ ["[command:db]"] }
    let payload := cmdPayload v c req.params now
    let channel := "cmd:" ++ v
    let st2 := if publishOk then
        { st1 with publishCalls := st1.publishCalls ++ [(channel, payload)],
                   published := st1.published ++ [(channel, payload)] }
      else
        { st1 with publishCalls := st1.publishCalls ++ [(channel, payload)],
                   warnings := st1.warnings ++ ["[redis publish cmd failed]"] }
    (st2, .accepted)

/-! ## Query facade (`GET /api/state/:vehicleId`) -/

/-- The route's response: `res.json(doc)`, `res.json({})` for a missing
document, or the 500 from the `catch` branch when the store read rejects. -/
inductive QueryResponse where
  | okDoc : LatestDoc → QueryResponse
  | okEmpty : QueryResponse
  | dbError : String → QueryResponse

/-- The `GET /api/state/:vehicleId` handler, applied to the result of the
awaited `latestColl.findOne` (`Except.error` = rejected promise):
`res.json(doc || {})` on success, 500 on a store failure. -/
def handleStateQuery (dbResult : Except String (Option LatestDoc)) : QueryResponse :=
  match dbResult with
  | .ok (some d) => .okDoc d
  | .ok none => .okEmpty
  | .error e => .dbError e

/-! ## Upgrade routing (the upgrade event of the HTTP server) -/

/-- What the upgrade handler does with a request: hand the socket to
`wssIngest` (an ingest connection), hand it to `wssStream` (an observer
connection), or `socket.destroy()` with no connection object created. -/
inductive UpgradeOutcome where
  | ingestConn : UpgradeOutcome
  | streamConn : UpgradeOutcome
  | destroyed : UpgradeOutcome
deriving DecidableEq

/-- JavaScript `s.startsWith(pre)`. -/
def jsStartsWith (s pre : String) : Bool :=
  pre.data.isPrefixOf s.data

/-- The upgrade router: `const url = req.url || ''`, then the
`/ws/telemetry` and `/ws/stream` prefix checks, else `socket.destroy()`. -/
def routeUpgrade (url : Option String) : UpgradeOutcome :=
  let u := url.getD ""
  if jsStartsWith u "/ws/telemetry" then .ingestConn
  else if jsStartsWith u "/ws/stream" then .streamConn
  else .destroyed

/-! ## Concrete states for scenarios and witnesses -/

/-- Gateway state at startup: empty collections, no observers, ingest
socket open, nothing published or logged. -/
def emptyGateway : GatewayState :=
  { rawColl := [], latestColl := [], cmdColl := [], streamClients := [],
    publishCalls := [], published := [], warnings := [], agentReplies := [],
    ingestConnOpen := true }

/-- Startup state with one connected, open observer. -/
def oneObserverGateway : GatewayState :=
  { emptyGateway with streamClients := [{ cid := 0, isOpen := true, received := [] }] }

/-- The design document's example ingest payload (its `agentId` is the
code's `vehicleId` field). -/
def scenarioMsg : Json :=
  .obj [("vehicleId", .str "v1"), ("ts", .num 1000), ("speedKph", .num 42),
        ("soc", .num (1/2)), ("batteryTempC", .num 30), ("motorTempC", .num 40),
        ("lat", .num 10), ("lng", .num 20), ("faults", .arr [])]

/-- The Report the validator extracts from `scenarioMsg`. -/
def scenarioReport : Report :=
  { vehicleId := "v1", ts := 1000, speedKph := 42, soc := 1/2,
    batteryTempC := 30, motorTempC := 40, lat := 10, lng := 20,
    faults := some [], meta := none }

/-! ## Helper lemmas -/

theorem allStrings_map_str (l : List String) :
    allStrings (l.map Json.str) = some l := by
  induction l with
  | nil => rfl
  | cons s t ih => simp [allStrings, ih]

/-- Serialization round-trip: the fan-out payload of a validated packet
re-validates to the same packet (the fan-out delivers the Report verbatim). -/
theorem telemetryParse_toJson (r : Report) :
    telemetryParse r.toJson = some r := by
  cases r with
  | mk v ts sp so bt mt la ln fl me =>
    cases fl <;> cases me <;>
      simp [telemetryParse, Report.toJson, Json.getField, lookupField,
            reqStr, reqNum, optStrArr, optObj, allStrings_map_str]

theorem ws_stream_not_telemetry (u : String)
    (h : jsStartsWith u "/ws/stream" = true) :
    jsStartsWith u "/ws/telemetry" = false := by
  unfold jsStartsWith at *
  by_contra hc
  rw [Bool.not_eq_false] at hc
  rw [ List.isPrefixOf_iff_prefix] at h hc
  rcases List.prefix_or_prefix_of_prefix h hc with hp | hp <;> revert hp <;> decide

theorem upsertLatest_cons_eq {d : LatestDoc} {ds : List LatestDoc}
    {r : Report} {now : ℕ} (hd : d.vehicleId = r.vehicleId) :
    upsertLatest (d :: ds) r now = { d with last := r, updatedAt := now } :: ds := by
  simp [upsertLatest, updateFirst, hd]

theorem upsertLatest_cons_ne {d : LatestDoc} {ds : List LatestDoc}
    {r : Report} {now : ℕ} (hd : ¬d.vehicleId = r.vehicleId) :
    upsertLatest (d :: ds) r now = d :: upsertLatest ds r now := by
  simp only [upsertLatest, updateFirst, hd, if_neg]
  cases hu : updateFirst ds r now <;> simp [hu]

theorem atMostOne_tail {d : LatestDoc} {ds : List LatestDoc}
    (h : atMostOne (d :: ds)) : atMostOne ds := by
  intro v
  have hv := h v
  by_cases hd : d.vehicleId = v
  · rw [List.filter_cons_of_pos (by simp [hd])] at hv
    simp only [List.length_cons] at hv
    omega
  · simpa [List.filter_cons, hd] using hv

/-- An upsert for one key leaves the documents filtered at any other key
unchanged. -/
theorem filter_upsert_other (ds : List LatestDoc) (r : Report) (now : ℕ)
    (v : String) (hv : ¬r.vehicleId = v) :
    (upsertLatest ds r now).filter (fun x => x.vehicleId = v)
      = ds.filter (fun x => x.vehicleId = v) := by
  induction ds with
  | nil => simp [upsertLatest, updateFirst, List.filter, hv]
  | cons d ds ih =>
    by_cases hd : d.vehicleId = r.vehicleId
    · rw [upsertLatest_cons_eq hd]
      have hdv : ¬d.vehicleId = v := by rw [hd]; exact hv
      simp [List.filter_cons, hdv]
    · rw [upsertLatest_cons_ne hd]
      by_cases hdv : d.vehicleId = v <;> simp [List.filter_cons, hdv, ih]

/-- Under the unique index, after an upsert the documents for the upserted
key are exactly the freshly written one. -/
theorem filter_upsert_self (coll : List LatestDoc) (r : Report) (now : ℕ)
    (hone : atMostOne coll) :
    (upsertLatest coll r now).filter (fun x => x.vehicleId = r.vehicleId)
      = [{ vehicleId := r.vehicleId, last := r, updatedAt := now }] := by
  induction coll with
  | nil => simp [upsertLatest, updateFirst, List.filter]
  | cons d ds ih =>
    by_cases hd : d.vehicleId = r.vehicleId
    · rw [upsertLatest_cons_eq hd]
      have htail : ds.filter (fun x => x.vehicleId = r.vehicleId) = [] := by
        have h1 := hone r.vehicleId
        simp [List.filter_cons, hd] at h1
        simpa using h1
      cases d
      simp_all [List.filter_cons]
    · rw [upsertLatest_cons_ne hd]
      simp [List.filter_cons, hd]
      exact ih (atMostOne_tail hone)

/-- The unique index is an invariant of the upsert. -/
theorem atMostOne_upsert (coll : List LatestDoc) (r : Report) (now : ℕ)
    (hone : atMostOne coll) : atMostOne (upsertLatest coll r now) := by
  intro v
  by_cases hv : r.vehicleId = v
  · subst hv
    rw [filter_upsert_self coll r now hone]
    simp
  · rw [filter_upsert_other coll r now v hv]
    exact hone v

/-- Reading with `findOne` after the upsert returns the freshly written
document. -/
theorem findOne_upsert (coll : List LatestDoc) (r : Report) (now : ℕ) :
    findOneLatest (upsertLatest coll r now) r.vehicleId
      = some { vehicleId := r.vehicleId, last := r, updatedAt := now } := by
  induction coll with
  | nil => simp [upsertLatest, updateFirst, findOneLatest, List.find?]
  | cons d ds ih =>
    by_cases hd : d.vehicleId = r.vehicleId
    · rw [upsertLatest_cons_eq hd]
      cases d
      simp_all [findOneLatest, List.find?]
    · rw [upsertLatest_cons_ne hd]
      simpa [findOneLatest, List.find?, hd] using ih

theorem ingestOutcome_streamClients (fm : Faults) (st : GatewayState)
    (r : Report) (now : ℕ) :
    (ingestOutcome fm st r now).streamClients
      = st.streamClients.map (fun c =>
          if c.isOpen then { c with received := c.received ++ [r.toJson] } else c) := by
  rcases fm with ⟨a, b, c⟩
  cases a <;> cases b <;> cases c <;> rfl

theorem ingestOutcome_rawColl (fm : Faults) (st : GatewayState)
    (r : Report) (now : ℕ) :
    (ingestOutcome fm st r now).rawColl
      = if fm.rawInsertOk then st.rawColl ++ [r] else st.rawColl := by
  rcases fm with ⟨a, b, c⟩
  cases a <;> cases b <;> cases c <;> rfl

theorem ingestOutcome_latestColl (fm : Faults) (st : GatewayState)
    (r : Report) (now : ℕ) :
    (ingestOutcome fm st r now).latestColl
      = if fm.upsertOk then upsertLatest st.latestColl r now else st.latestColl := by
  rcases fm with ⟨a, b, c⟩
  cases a <;> cases b <;> cases c <;> rfl

theorem ingestOutcome_publishCalls (fm : Faults) (st : GatewayState)
    (r : Report) (now : ℕ) :
    (ingestOutcome fm st r now).publishCalls
      = st.publishCalls ++ [("telemetry", r.toJson)] := by
  rcases fm with ⟨a, b, c⟩
  cases a <;> cases b <;> cases c <;> rfl

theorem ingestOutcome_published (fm : Faults) (st : GatewayState)
    (r : Report) (now : ℕ) :
    (ingestOutcome fm st r now).published
      = if fm.publishOk then st.published ++ [("telemetry", r.toJson)]
        else st.published := by
  rcases fm with ⟨a, b, c⟩
  cases a <;> cases b <;> cases c <;> rfl

theorem ingestOutcome_agentReplies (fm : Faults) (st : GatewayState)
    (r : Report) (now : ℕ) :
    (ingestOutcome fm st r now).agentReplies = st.agentReplies := by
  rcases fm with ⟨a, b, c⟩
  cases a <;> cases b <;> cases c <;> rfl

theorem ingestOutcome_ingestConnOpen (fm : Faults) (st : GatewayState)
    (r : Report) (now : ℕ) :
    (ingestOutcome fm st r now).ingestConnOpen = st.ingestConnOpen := by
  rcases fm with ⟨a, b, c⟩
  cases a <;> cases b <;> cases c <;> rfl

theorem ingestOutcome_warn_upsert (fm : Faults) (st : GatewayState)
    (r : Report) (now : ℕ) (h : fm.upsertOk = false) :
    "[latestColl.updateOne]" ∈ (ingestOutcome fm st r now).warnings := by
  rcases fm with ⟨a, b, c⟩
  cases b
  · cases a <;> cases c <;> simp [ingestOutcome]
  · simp at h

/-- A message that validates runs the whole `try` body. -/
theorem handleIngest_valid (fm : Faults) (st : GatewayState) (j : Json)
    (r : Report) (now : ℕ) (h : telemetryParse j = some r) :
    handleIngestMessage fm st (some j) now = ingestOutcome fm st r now := by
  simp [handleIngestMessage, ingestTryBody, Option.bind, h]

/-- A message that fails to parse or validate is dropped by the outer catch. -/
theorem handleIngest_invalid (fm : Faults) (st : GatewayState)
    (msg : Option Json) (now : ℕ) (h : msg.bind telemetryParse = none) :
    handleIngestMessage fm st msg now = st := by
  simp [handleIngestMessage, ingestTryBody, h]

/-! ## Claims -/

/-- C4: every malformed ingest message (unparsable JSON, i.e. `none`, or a
JSON value the zod schema rejects) causes no raw-log write, no projection
change, no fan-out, no publish, no reply to the sender, and leaves the
ingest connection open — the handler leaves the gateway state untouched. -/
theorem C4_malformed_ingest_no_side_effects (fm : Faults) (st : GatewayState)
    (msg : Option Json) (now : ℕ) (h : msg.bind telemetryParse = none) :
    handleIngestMessage fm st msg now = st ∧
    (st.ingestConnOpen = true →
      (handleIngestMessage fm st msg now).ingestConnOpen = true) := by
  have he := handleIngest_invalid fm st msg now h
  exact ⟨he, fun ho => by rw [he]; exact ho⟩

/-- C4 witness: a schema-violating object (no fields at all) is dropped with
the state unchanged. -/
theorem C4_witness :
    handleIngestMessage allOk emptyGateway (some (Json.obj [])) 0 = emptyGateway ∧
    (emptyGateway.ingestConnOpen = true →
      (handleIngestMessage allOk emptyGateway (some (Json.obj [])) 0).ingestConnOpen
        = true) :=
  C4_malformed_ingest_no_side_effects allOk emptyGateway (some (Json.obj [])) 0 rfl

/-- C5: under the unique index invariant, upserting the same Report twice
leaves exactly one document for that `vehicleId`, holding that Report (and
the second write's timestamp); each write fully replaces the `last` value,
and the at-most-one-per-key invariant is preserved by every write. -/
theorem C5_projection_idempotent_full_replace (coll : List LatestDoc)
    (r : Report) (t1 t2 : ℕ) (hone : atMostOne coll) :
    ((upsertLatest (upsertLatest coll r t1) r t2).filter
        (fun d => d.vehicleId = r.vehicleId)
      = [{ vehicleId := r.vehicleId, last := r, updatedAt := t2 }]) ∧
    atMostOne (upsertLatest coll r t1) ∧
    (∀ d ∈ upsertLatest coll r t1, d.vehicleId = r.vehicleId → d.last = r) := by
  have h1 : atMostOne (upsertLatest coll r t1) := atMostOne_upsert coll r t1 hone
  refine ⟨filter_upsert_self _ r t2 h1, h1, fun d hd hkey => ?_⟩
  have hmem : d ∈ (upsertLatest coll r t1).filter
      (fun x => x.vehicleId = r.vehicleId) :=
    List.mem_filter.mpr ⟨hd, by simp [hkey]⟩
  rw [filter_upsert_self coll r t1 hone] at hmem
  simp at hmem
  simp [hmem]

/-- C5 witness: the double upsert on the empty projection store. -/
theorem C5_witness :
    ((upsertLatest (upsertLatest [] scenarioReport 1) scenarioReport 2).filter
        (fun d => d.vehicleId = scenarioReport.vehicleId)
      = [{ vehicleId := scenarioReport.vehicleId, last := scenarioReport,
           updatedAt := 2 }]) ∧
    atMostOne (upsertLatest [] scenarioReport 1) ∧
    (∀ d ∈ upsertLatest [] scenarioReport 1,
      d.vehicleId = scenarioReport.vehicleId → d.last = scenarioReport) :=
  C5_projection_idempotent_full_replace [] scenarioReport 1 2
    (fun v => by simp)

/-- C7: a command request whose `vehicleId` is missing, or whose `command`
is missing or empty, is rejected with the 400 response and the state is
untouched — no durable write, no publish, no log line. -/
theorem C7_bad_command_rejected_before_side_effects
    (insertOk publishOk : Bool) (st : GatewayState) (req : CommandRequest)
    (now : ℕ)
    (h : req.vehicleId = none ∨ req.command = none ∨ req.command = some "") :
    handleCommand insertOk publishOk st req now = (st, CmdResponse.badRequest) := by
  have hf : (jsFalsyStr req.vehicleId || jsFalsyStr req.command) = true := by
    rcases h with h | h | h <;> simp [jsFalsyStr, h]
  simp [handleCommand, hf]

/-- C7 witness: `vehicleId="v1"`, `command=""` is rejected with no durable
write. -/
theorem C7_witness :
    handleCommand true true emptyGateway
      { vehicleId := some "v1", command := some "", params := none } 0
      = (emptyGateway, CmdResponse.badRequest) :=
  C7_bad_command_rejected_before_side_effects true true emptyGateway
    { vehicleId := some "v1", command := some "", params := none } 0
    (Or.inr (Or.inr rfl))

/-- C8: when no `vehicle_state_latest` document exists for the requested id
(and the store read itself succeeds), the query facade answers the empty
object, not an error. -/
theorem C8_unknown_agent_empty_result (coll : List LatestDoc)
    (vehicleId : String) (h : ∀ d ∈ coll, d.vehicleId ≠ vehicleId) :
    handleStateQuery (.ok (findOneLatest coll vehicleId)) = .okEmpty := by
  have hn : findOneLatest coll vehicleId = none := by
    rw [findOneLatest, List.find?_eq_none]
    intro d hd
    simpa using h d hd
  rw [hn]
  rfl

/-- C8 witness: the empty store knows no vehicle. -/
theorem C8_witness :
    handleStateQuery (.ok (findOneLatest [] "v1")) = .okEmpty :=
  C8_unknown_agent_empty_result [] "v1" (by simp)

/-- C9: the upgrade router sends the telemetry path to the ingest server,
the stream path to the observer server, and destroys the socket — creating
no connection — on every other path. -/
theorem C9_upgrade_routing (url : Option String) :
    (jsStartsWith (url.getD "") "/ws/telemetry" = true →
        routeUpgrade url = .ingestConn) ∧
    (jsStartsWith (url.getD "") "/ws/stream" = true →
        routeUpgrade url = .streamConn) ∧
    (jsStartsWith (url.getD "") "/ws/telemetry" = false ∧
        jsStartsWith (url.getD "") "/ws/stream" = false →
      routeUpgrade url = .destroyed) := by
  refine ⟨fun h => by simp [routeUpgrade, h], fun h => ?_,
    fun h => by simp [routeUpgrade, h.1, h.2]⟩
  have ht := ws_stream_not_telemetry _ h
  simp [routeUpgrade, h, ht]

/-- C9 witness: the three routing outcomes at concrete paths. -/
theorem C9_witness :
    routeUpgrade (some "/ws/telemetry") = .ingestConn ∧
    routeUpgrade (some "/ws/stream") = .streamConn ∧
    routeUpgrade (some "/api/state/v1") = .destroyed :=
  ⟨(C9_upgrade_routing (some "/ws/telemetry")).1 (by decide),
   (C9_upgrade_routing (some "/ws/stream")).2.1 (by decide),
   (C9_upgrade_routing (some "/api/state/v1")).2.2 ⟨by decide, by decide⟩⟩

/-- C2: the telemetry publish is issued with only a `.catch` attached, so a
pub/sub outage at publish time cannot stop the handler: every open local
observer still gets the payload, and that payload re-validates to the very
Report that was ingested. -/
theorem C2_local_delivery_survives_publish_failure
    (rawOk upsertOk : Bool) (st : GatewayState) (j : Json) (r : Report)
    (now : ℕ) (h : telemetryParse j = some r) :
    (∀ c ∈ st.streamClients, c.isOpen = true →
      ({ c with received := c.received ++ [r.toJson] } : StreamClient)
        ∈ (handleIngestMessage ⟨rawOk, upsertOk, false⟩ st (some j) now).streamClients) ∧
    telemetryParse r.toJson = some r := by
  refine ⟨fun c hc ho => ?_, telemetryParse_toJson r⟩
  rw [handleIngest_valid _ st j r now h, ingestOutcome_streamClients]
  have hm := List.mem_map_of_mem (fun c =>
    if c.isOpen then { c with received := c.received ++ [r.toJson] } else c) hc
  simpa [ho] using hm

/-- C2 witness: with the pub/sub backend down, the one connected observer
still receives the scenario report. -/
theorem C2_witness :
    ({ cid := 0, isOpen := true, received := [scenarioReport.toJson] } : StreamClient)
      ∈ (handleIngestMessage ⟨true, true, false⟩ oneObserverGateway
          (some scenarioMsg) 5).streamClients ∧
    telemetryParse scenarioReport.toJson = some scenarioReport := by
  have hc := C2_local_delivery_survives_publish_failure true true
    oneObserverGateway scenarioMsg scenarioReport 5 rfl
  refine ⟨?_, hc.2⟩
  have hm := hc.1 { cid := 0, isOpen := true, received := [] }
    (by simp [oneObserverGateway, emptyGateway]) rfl
  simpa using hm

/-- C3: a projection upsert failure is caught by its own `try`/`catch`, so
the publish call is still made, every open local observer is still served,
the failure lands in the operator log only, and the agent connection sees
neither a reply nor a close. -/
theorem C3_upsert_failure_still_fans_out
    (rawOk publishOk : Bool) (st : GatewayState) (j : Json) (r : Report)
    (now : ℕ) (h : telemetryParse j = some r) :
    ("telemetry", r.toJson)
        ∈ (handleIngestMessage ⟨rawOk, false, publishOk⟩ st (some j) now).publishCalls ∧
    (∀ c ∈ st.streamClients, c.isOpen = true →
      ({ c with received := c.received ++ [r.toJson] } : StreamClient)
        ∈ (handleIngestMessage ⟨rawOk, false, publishOk⟩ st (some j) now).streamClients) ∧
    "[latestColl.updateOne]"
        ∈ (handleIngestMessage ⟨rawOk, false, publishOk⟩ st (some j) now).warnings ∧
    (handleIngestMessage ⟨rawOk, false, publishOk⟩ st (some j) now).latestColl
        = st.latestColl ∧
    (handleIngestMessage ⟨rawOk, false, publishOk⟩ st (some j) now).agentReplies
        = st.agentReplies ∧
    (handleIngestMessage ⟨rawOk, false, publishOk⟩ st (some j) now).ingestConnOpen
        = st.ingestConnOpen := by
  rw [handleIngest_valid _ st j r now h]
  refine ⟨?_, fun c hc ho => ?_, ?_, ?_, ?_, ?_⟩
  · rw [ingestOutcome_publishCalls]
    simp
  · rw [ingestOutcome_streamClients]
    have hm := List.mem_map_of_mem (fun c =>
      if c.isOpen then { c with received := c.received ++ [r.toJson] } else c) hc
    simpa [ho] using hm
  · exact ingestOutcome_warn_upsert _ st r now rfl
  · rw [ingestOutcome_latestColl]
    rfl
  · exact ingestOutcome_agentReplies _ st r now
  · exact ingestOutcome_ingestConnOpen _ st r now

/-- C3 witness: upsert failing on the scenario report, with one observer. -/
theorem C3_witness :
    ("telemetry", scenarioReport.toJson)
        ∈ (handleIngestMessage ⟨true, false, true⟩ oneObserverGateway
            (some scenarioMsg) 5).publishCalls ∧
    "[latestColl.updateOne]"
        ∈ (handleIngestMessage ⟨true, false, true⟩ oneObserverGateway
            (some scenarioMsg) 5).warnings ∧
    (handleIngestMessage ⟨true, false, true⟩ oneObserverGateway
        (some scenarioMsg) 5).latestColl = oneObserverGateway.latestColl := by
  have hc := C3_upsert_failure_still_fans_out true true
    oneObserverGateway scenarioMsg scenarioReport 5 rfl
  exact ⟨hc.1, hc.2.2.1, hc.2.2.2.1⟩

/-- C6 counterexample: with the command-log insert rejected, the route still
answers `{ok:true}` although nothing was durably appended — so success is
NOT returned exactly when the CommandIntent is durably appended. -/
theorem C6_counterexample :
    (handleCommand false true emptyGateway
        { vehicleId := some "v1", command := some "go", params := none } 7).2
      = CmdResponse.accepted ∧
    (handleCommand false true emptyGateway
        { vehicleId := some "v1", command := some "go", params := none } 7).1.cmdColl
      = [] := by
  constructor <;> rfl

/-- C6 (amended): for every well-formed request the route answers
`{ok:true}` once the durable append has been ATTEMPTED — regardless of
whether the append or the later publish succeeds; an append failure leaves
the log unchanged and is only warned about, and a publish failure is only
warned about, never surfaced to the caller. -/
theorem C6_command_ack_after_append_attempt
    (insertOk publishOk : Bool) (st : GatewayState) (req : CommandRequest)
    (now : ℕ) (hv : jsFalsyStr req.vehicleId = false)
    (hc : jsFalsyStr req.command = false) :
    (handleCommand insertOk publishOk st req now).2 = CmdResponse.accepted ∧
    (insertOk = true →
      (handleCommand insertOk publishOk st req now).1.cmdColl
        = st.cmdColl ++ [intentDoc req now]) ∧
    (insertOk = false →
      (handleCommand insertOk publishOk st req now).1.cmdColl = st.cmdColl ∧
      "[command:db]" ∈ (handleCommand insertOk publishOk st req now).1.warnings) ∧
    (publishOk = false →
      "[redis publish cmd failed]"
        ∈ (handleCommand insertOk publishOk st req now).1.warnings) := by
  cases insertOk <;> cases publishOk <;>
    simp [handleCommand, hv, hc]

/-- C6 witness: both backends failing on a well-formed request. -/
theorem C6_witness :
    (handleCommand false false emptyGateway
        { vehicleId := some "v1", command := some "go", params := none } 7).2
      = CmdResponse.accepted ∧
    ((handleCommand false false emptyGateway
        { vehicleId := some "v1", command := some "go", params := none } 7).1.cmdColl
      = emptyGateway.cmdColl ∧
     "[command:db]" ∈ (handleCommand false false emptyGateway
        { vehicleId := some "v1", command := some "go", params := none } 7).1.warnings) ∧
    "[redis publish cmd failed]" ∈ (handleCommand false false emptyGateway
        { vehicleId := some "v1", command := some "go", params := none } 7).1.warnings := by
  have h := C6_command_ack_after_append_attempt false false emptyGateway
    { vehicleId := some "v1", command := some "go", params := none } 7 rfl rfl
  exact ⟨h.1, h.2.2.1 rfl, h.2.2.2 rfl⟩

/-- C10: the ingest handler is total. A message that validates always runs
the try body to completion whatever the backends do (the raw insert and the
publish carry their own `.catch`, the upsert its own `try`/`catch`); and
whenever the body does throw (parse or validation), the outer catch drops
the message with the state unchanged — so no exception escapes the handler. -/
theorem C10_ingest_handler_total
    (fm : Faults) (st : GatewayState) (msg : Option Json) (now : ℕ) :
    ((∃ j r, msg = some j ∧ telemetryParse j = some r) →
      ∃ st2, ingestTryBody fm st msg now = .ok st2) ∧
    (∀ e, ingestTryBody fm st msg now = .error e →
      handleIngestMessage fm st msg now = st) ∧
    (∀ st2, ingestTryBody fm st msg now = .ok st2 →
      handleIngestMessage fm st msg now = st2) := by
  refine ⟨?_, ?_, ?_⟩
  · rintro ⟨j, r, rfl, hr⟩
    exact ⟨ingestOutcome fm st r now, by simp [ingestTryBody, hr]⟩
  · intro e he
    simp [handleIngestMessage, he]
  · intro st2 he
    simp [handleIngestMessage, he]

/-- Modelled from the spec: the shape the design document promises the
validator accepts — a JSON object with a string agent identifier (the
code's `vehicleId`), numeric `ts` and measurement fields, an optional
string-array of fault codes (the code's `faults`) and an optional metadata
object (the code's `meta`). Extra keys are unconstrained. -/
def specShapedMessage (j : Json) : Prop :=
  (∃ s, j.getField "vehicleId" = some (.str s)) ∧
  (∃ q, j.getField "ts" = some (.num q)) ∧
  (∃ q, j.getField "speedKph" = some (.num q)) ∧
  (∃ q, j.getField "soc" = some (.num q)) ∧
  (∃ q, j.getField "batteryTempC" = some (.num q)) ∧
  (∃ q, j.getField "motorTempC" = some (.num q)) ∧
  (∃ q, j.getField "lat" = some (.num q)) ∧
  (∃ q, j.getField "lng" = some (.num q)) ∧
  (∀ v, j.getField "faults" = some v → ∃ l : List String, v = .arr (l.map .str)) ∧
  (∀ v, j.getField "meta" = some v → ∃ m, v = .obj m)

/-- C1: (i) every message of the shape the design document describes passes
the validator; (ii) every validated Report enters the whole pipeline under
healthy backends — raw log append, projection upsert readable back through
`findOne`, pub/sub publish, and local fan-out; (iii) the design document's
example payload (its `agentId` is the code's `vehicleId`), ingested into a
fresh gateway with one observer, makes the query facade return a record
whose `speedKph` is 42, and the observer receives the identical object. -/
theorem C1_schema_accepts_and_report_enters_pipeline :
    (∀ j : Json, specShapedMessage j → ∃ r, telemetryParse j = some r) ∧
    (∀ (st : GatewayState) (j : Json) (r : Report) (now : ℕ),
      telemetryParse j = some r →
      (handleIngestMessage allOk st (some j) now).rawColl = st.rawColl ++ [r] ∧
      findOneLatest (handleIngestMessage allOk st (some j) now).latestColl
          r.vehicleId
        = some { vehicleId := r.vehicleId, last := r, updatedAt := now } ∧
      ("telemetry", r.toJson)
          ∈ (handleIngestMessage allOk st (some j) now).published ∧
      (∀ c ∈ st.streamClients, c.isOpen = true →
        ({ c with received := c.received ++ [r.toJson] } : StreamClient)
          ∈ (handleIngestMessage allOk st (some j) now).streamClients)) ∧
    (∃ d, findOneLatest (handleIngestMessage allOk oneObserverGateway
            (some scenarioMsg) 5).latestColl "v1" = some d ∧
      d.last.speedKph = 42 ∧
      ({ cid := 0, isOpen := true, received := [scenarioReport.toJson] } : StreamClient)
        ∈ (handleIngestMessage allOk oneObserverGateway
            (some scenarioMsg) 5).streamClients) := by
  refine ⟨?_, ?_, ?_⟩
  · rintro j ⟨⟨s, hs⟩, ⟨q1, h1⟩, ⟨q2, h2⟩, ⟨q3, h3⟩, ⟨q4, h4⟩, ⟨q5, h5⟩,
      ⟨q6, h6⟩, ⟨q7, h7⟩, hf, hm⟩
    have hfa : ∃ of, optStrArr j "faults" = some of := by
      cases hv : j.getField "faults" with
      | none => exact ⟨none, by simp [optStrArr, hv]⟩
      | some v =>
        obtain ⟨l, rfl⟩ := hf v hv
        exact ⟨some l, by simp [optStrArr, hv, allStrings_map_str]⟩
    have hme : ∃ om, optObj j "meta" = some om := by
      cases hv : j.getField "meta" with
      | none => exact ⟨none, by simp [optObj, hv]⟩
      | some v =>
        obtain ⟨m, rfl⟩ := hm v hv
        exact ⟨some m, by simp [optObj, hv]⟩
    obtain ⟨of, hof⟩ := hfa
    obtain ⟨om, hom⟩ := hme
    refine ⟨⟨s, q1, q2, q3, q4, q5, q6, q7, of, om⟩, ?_⟩
    simp [telemetryParse, reqStr, reqNum, hs, h1, h2, h3, h4, h5, h6, h7,
          hof, hom]
  · intro st j r now h
    rw [handleIngest_valid allOk st j r now h]
    refine ⟨?_, ?_, ?_, fun c hc ho => ?_⟩
    · rw [ingestOutcome_rawColl]
      rfl
    · rw [ingestOutcome_latestColl]
      exact findOne_upsert st.latestColl r now
    · rw [ingestOutcome_published]
      simp [allOk]
    · rw [ingestOutcome_streamClients]
      have hmm := List.mem_map_of_mem (fun c =>
        if c.isOpen then { c with received := c.received ++ [r.toJson] } else c) hc
      simpa [ho] using hmm
  · refine ⟨{ vehicleId := "v1", last := scenarioReport, updatedAt := 5 },
      rfl, rfl, ?_⟩
    have hs : (handleIngestMessage allOk oneObserverGateway
        (some scenarioMsg) 5).streamClients
        = [{ cid := 0, isOpen := true, received := [scenarioReport.toJson] }] := rfl
    rw [hs]
    exact List.mem_singleton.mpr rfl

/-- C1 witness: the example payload validates, and ingesting it appends it
to the raw log. -/
theorem C1_witness :
    (∃ r, telemetryParse scenarioMsg = some r) ∧
    (handleIngestMessage allOk emptyGateway (some scenarioMsg) 5).rawColl
      = emptyGateway.rawColl ++ [scenarioReport] :=
  ⟨(C1_schema_accepts_and_report_enters_pipeline).1 scenarioMsg
    ⟨⟨"v1", rfl⟩, ⟨1000, rfl⟩, ⟨42, rfl⟩, ⟨1/2, rfl⟩, ⟨30, rfl⟩, ⟨40, rfl⟩,
     ⟨10, rfl⟩, ⟨20, rfl⟩,
     fun v hv => ⟨[], (Option.some.inj hv).symm⟩,
     fun v hv => by simp [scenarioMsg, Json.getField, lookupField] at hv⟩,
   ((C1_schema_accepts_and_report_enters_pipeline).2.1 emptyGateway
      scenarioMsg scenarioReport 5 rfl).1⟩

/-- C10 witness: an unparsable frame under total backend failure is
absorbed, the handler returning the unchanged state. -/
theorem C10_witness :
    handleIngestMessage ⟨false, false, false⟩ emptyGateway
      (some (Json.str "garbage")) 0 = emptyGateway :=
  (C10_ingest_handler_total ⟨false, false, false⟩ emptyGateway
    (some (Json.str "garbage")) 0).2.1 () rfl

end VehicleTelemetry
